import Mathlib

/-!
Verification model of the TestPilot repository.

Embedded source:
* `IntelligentTestingAgent` (src/handler/browser/index.js, second module in
  that file): `cleanOpenAIResponse`, `think`, `act`, `clickElementByDecision`,
  `fillFormByDecision`, `navigate`, the `testWebsite` run loop,
  `generateReport`, `getRecommendations`, `cleanup`.
* `WebsiteCrawler` (src/analyze-website.js, second module in that file):
  the frontier bookkeeping of `analyzePage` and `crawlWebsite`.

External capabilities (the live browser DOM, playwright `page.click` /
`page.goto` / `page.fill`, the OpenAI chat call, the JS builtins `JSON.parse`
and `new URL`) are modelled as explicit function parameters; theorems
quantify over them, and concrete instantiations are supplied for witnesses.
-/

namespace TestPilot

/-!
String manipulation is performed on the underlying character lists
(structurally recursive, hence fully evaluable inside proofs); each helper
mirrors the obvious JS string primitive. -/

def strIsEmpty (s : String) : Bool := s.data.isEmpty

def strStartsWith (s pre : String) : Bool := pre.data.isPrefixOf s.data

def strEndsWith (s suf : String) : Bool := suf.data.reverse.isPrefixOf s.data.reverse

def strDrop (s : String) (n : Nat) : String := String.mk (s.data.drop n)

def strDropRight (s : String) (n : Nat) : String :=
  String.mk ((s.data.reverse.drop n).reverse)

def strTake (s : String) (n : Nat) : String := String.mk (s.data.take n)

def strToLower (s : String) : String := String.mk (s.data.map Char.toLower)

def strDropWhileLeft (s : String) (p : Char → Bool) : String :=
  String.mk (s.data.dropWhile p)

def strDropWhileRight (s : String) (p : Char → Bool) : String :=
  String.mk ((s.data.reverse.dropWhile p).reverse)

/-- JS `String.prototype.trim`: whitespace removed from both ends. -/
def strTrim (s : String) : String :=
  strDropWhileRight (strDropWhileLeft s Char.isWhitespace) Char.isWhitespace

/-- JS truthiness of a possibly-undefined string (`undefined` and `""` are
falsy). `none` models JS `undefined`/`null`. -/
def jsTruthy : Option String → Bool
  | none => false
  | some s => !strIsEmpty s

/-- JS `a || b` on possibly-undefined strings: yields `a` when `a` is truthy,
otherwise `b` (the falsy values `undefined` and `""` both fall through;
when every operand is falsy JS returns the last one, which callers here
treat uniformly as absent). -/
def jsOr (a b : Option String) : Option String :=
  match a with
  | some s => if strIsEmpty s then b else some s
  | none => b

/-- JS `Set.add`: appends iff not already a member (JS sets keep insertion
order, which we model with a duplicate-free list). -/
def setAdd (l : List String) (x : String) : List String :=
  if x ∈ l then l else l ++ [x]

/-- First replacement of `cleanOpenAIResponse`: the regex
`^`+ three backticks +`(?:json)?\s*` with the `i` flag, i.e. an opening
code fence, an optional case-insensitive `json` tag, and any following
whitespace, anchored at the start. -/
def stripFenceOpen (s : String) : String :=
  if strStartsWith s "```" then
    let r := strDrop s 3
    let r := if strToLower (strTake r 4) = "json" then strDrop r 4 else r
    strDropWhileLeft r Char.isWhitespace
  else s

/-- Second replacement of `cleanOpenAIResponse`: the regex `\s*` + three
backticks + `$`, i.e. a closing code fence at the very end together with the
whitespace before it. -/
def stripFenceClose (s : String) : String :=
  if strEndsWith s "```" then strDropWhileRight (strDropRight s 3) Char.isWhitespace
  else s

/-- `IntelligentTestingAgent.cleanOpenAIResponse`: strips markdown code-fence
wrapping and trims. The JS guard `!responseText` returns falsy input (the
empty string) unchanged. -/
def cleanOpenAIResponse (s : String) : String :=
  if strIsEmpty s then s
  else strTrim (stripFenceClose (stripFenceOpen s))

/-- The `target_element` payload of a Decision; the executor only ever reads
its `id` field (`decision.target_element.id`). -/
structure TargetElement where
  id : Option String
  deriving Repr, DecidableEq

/-- A Decision as the loosely-typed object the agent works with. `action` is
the raw string from the oracle (an absent/undefined `action` behaves in the
`act` switch exactly like any unrecognized string, so it needs no separate
representation). `none` in the optional fields models JS `undefined`. -/
structure Decision where
  action : String
  reasoning : Option String
  target_text : Option String
  target_href : Option String
  target_element : Option TargetElement
  fill_data : Option (List (String × String))
  confidence : Option String
  deriving Repr, DecidableEq

/-- The five enumerated action kinds of the Decision schema. -/
def actionKinds : List String :=
  ["navigate", "click_element", "fill_form", "analyze", "complete"]

/-- The fallback Decision built in the `catch` branch of
`IntelligentTestingAgent.think`. -/
def defaultDecision : Decision :=
  { action := "analyze"
    reasoning := some "I encountered an error and need to re-analyze the page"
    target_text := none
    target_href := none
    target_element := none
    fill_data := none
    confidence := some "low" }

/-- `IntelligentTestingAgent.think`. `reply` is the raw oracle text (`none`
models the OpenAI request itself throwing); `parse` models the external
builtin `JSON.parse` composed with reading the Decision's fields off the
parsed object (`none` = `JSON.parse` threw). Both failure cases are caught
by the same `catch`, which returns `defaultDecision`; a successful parse is
returned unchanged — the source performs no validation of the parsed
object. -/
def think (parse : String → Option Decision) (reply : Option String) : Decision :=
  match reply with
  | none => defaultDecision
  | some raw =>
    match parse (cleanOpenAIResponse raw) with
    | none => defaultDecision
    | some d => d

/-- One entry of `htmlData.interactiveElements`, restricted to the fields the
executor reads (`clickElementByDecision` reads `text`, `href`, `id`, `name`,
`type`, `tag`; the extraction code also carries `index`, `selector`,
`class`, `placeholder`, `value`, `onclick`, `role`, which no embedded
operation ever consults). `none` models `null`/`undefined`. -/
structure ElementDescriptor where
  tag : String
  text : String
  id : Option String
  name : Option String
  type : Option String
  href : Option String
  deriving Repr, DecidableEq

/-- A playwright selector as built by the click strategies, kept symbolic so
that click outcomes can be supplied by the environment. -/
inductive Selector
  | exactText (t : String)
  | partialText (t : String)
  | hrefExact (h : String)
  | hrefPath (p : String)
  | byId (i : String)
  | byName (n : String)
  | byTagType (tag ty : String)
  deriving Repr, DecidableEq

/-- The predicate of the `htmlData.interactiveElements.find` call in
`clickElementByDecision`: strict (`===`) comparisons, so an absent field on
either side never matches, and the `id` arm first requires
`decision.target_element.id` to be truthy. -/
def elemMatchesDecision (d : Decision) (te : TargetElement) (el : ElementDescriptor) : Bool :=
  (match d.target_text with
   | some t => el.text = t
   | none => false) ||
  (match d.target_href, el.href with
   | some h, some eh => eh = h
   | _, _ => false) ||
  (match te.id, el.id with
   | some i, some ei => !strIsEmpty i && ei = i
   | _, _ => false)

/-- The element lookup guarded by `if (decision.target_element)` (objects are
always truthy, so the guard is just presence). -/
def findTargetElement (d : Decision) (els : List ElementDescriptor) :
    Option ElementDescriptor :=
  match d.target_element with
  | none => none
  | some te => els.find? (elemMatchesDecision d te)

/-- The selectors pushed for the matched element: `#id`, `[name=...]`,
`tag[type=...]`, each guarded by truthiness of the corresponding field. -/
def elemStrategies (el : ElementDescriptor) : List Selector :=
  (match el.id with
   | some i => if strIsEmpty i then [] else [.byId i]
   | none => []) ++
  (match el.name with
   | some n => if strIsEmpty n then [] else [.byName n]
   | none => []) ++
  (match el.type with
   | some ty => if strIsEmpty ty then [] else [.byTagType el.tag ty]
   | none => [])

/-- The ordered strategy list built by `clickElementByDecision`:
exact text, partial text (when `target_text` is truthy); exact href, then
path-only href when `new URL(target_href)` parses (when `target_href` is
truthy); then id/name/type selectors of the matched element. `parseURL`
models the external `new URL` builtin, returning the pathname or `none`
when the constructor throws (e.g. a relative href). -/
def clickStrategies (parseURL : String → Option String) (d : Decision)
    (els : List ElementDescriptor) : List Selector :=
  (match d.target_text with
   | some t => if strIsEmpty t then [] else [.exactText t, .partialText t]
   | none => []) ++
  (match d.target_href with
   | some h =>
     if strIsEmpty h then []
     else
       [.hrefExact h] ++
         (match parseURL h with
          | some p => [.hrefPath p]
          | none => [])
   | none => []) ++
  (match findTargetElement d els with
   | some el => elemStrategies el
   | none => [])

/-- The strategy loop: try each selector in order, stopping at the first
success. Returns the list of selectors actually attempted together with the
successful one, if any (on total failure every selector was attempted). -/
def firstSuccess (click : Selector → Bool) : List Selector → List Selector × Option Selector
  | [] => ([], none)
  | s :: rest =>
    if click s then ([s], some s)
    else
      let r := firstSuccess click rest
      (s :: r.1, r.2)

/-- How a `clickElementByDecision` call ended. -/
inductive ClickOutcome
  | clicked (s : Selector)
  | fallbackNav (href : String) (navOk : Bool)
  | failed
  deriving Repr, DecidableEq

/-- Result of `clickElementByDecision`: which selectors were attempted and
how the call ended (`failed` models the final `throw`). -/
structure ClickExec where
  attempted : List Selector
  outcome : ClickOutcome
  deriving Repr, DecidableEq

/-- Per-step external world: whether the loop-top `getCleanedHTML` succeeds,
the snapshot it produces, the raw oracle reply (`none` = request threw),
and the outcomes of the playwright operations attempted during `act`. -/
structure StepEnv where
  snapshotOk : Bool
  els : List ElementDescriptor
  oracleReply : Option String
  click : Selector → Bool
  parseURL : String → Option String
  navOk : String → Bool
  fill : String → String → Bool
  actSnapshotOk : Bool

/-- `IntelligentTestingAgent.clickElementByDecision`: build the strategy
list, try each in order, on total failure fall back to direct navigation
when `target_href` is truthy, otherwise throw. -/
def clickElementByDecision (se : StepEnv) (d : Decision)
    (els : List ElementDescriptor) : ClickExec :=
  let strats := clickStrategies se.parseURL d els
  match firstSuccess se.click strats with
  | (att, some s) => ⟨att, .clicked s⟩
  | (att, none) =>
    match d.target_href with
    | some h => if strIsEmpty h then ⟨att, .failed⟩ else ⟨att, .fallbackNav h (se.navOk h)⟩
    | none => ⟨att, .failed⟩

/-- The selector candidates tried for one form field, in source order:
`[name=...]`, `#id`, placeholder substring, aria-label substring (rendered
as the literal selector strings the source interpolates). -/
def fillSelectors (field : String) : List String :=
  ["[name=\"" ++ field ++ "\"]",
   "#" ++ field,
   "input[placeholder*=\"" ++ field ++ "\"]",
   "input[aria-label*=\"" ++ field ++ "\"]"]

/-- `IntelligentTestingAgent.fillFormByDecision` body for present
`fill_data`: each field commits the first selector that fills successfully;
unmatched fields are only logged, so this function never throws. Returns
which selector (if any) was committed per field. -/
def fillFormFields (fill : String → String → Bool)
    (data : List (String × String)) : List (String × Option String) :=
  data.map (fun fv => (fv.1, (fillSelectors fv.1).find? (fun sel => fill sel fv.2)))

/-- The `target` value stored in an ActionRecord:
`decision.target_text || decision.target_href || decision.target_element`
(an object in the last position is truthy; when all three are falsy the
stored value is falsy/absent). -/
inductive TargetVal
  | str (s : String)
  | obj (te : TargetElement)
  | absent
  deriving Repr, DecidableEq

def recordTarget (d : Decision) : TargetVal :=
  match jsOr d.target_text d.target_href with
  | some s =>
    if strIsEmpty s then
      match d.target_element with
      | some te => .obj te
      | none => .absent
    else .str s
  | none =>
    match d.target_element with
    | some te => .obj te
    | none => .absent

/-- One entry of `this.memory.testHistory` (the wall-clock timestamp is
dropped; no embedded operation reads it). -/
structure ActionRecord where
  action : String
  target : TargetVal
  reasoning : Option String
  confidence : Option String
  success : Bool
  error : Option String
  deriving Repr, DecidableEq

def successRecord (d : Decision) : ActionRecord :=
  ⟨d.action, recordTarget d, d.reasoning, d.confidence, true, none⟩

/-- A failed record; `msg` stands for the message of the JS error that was
caught (for errors raised by external operations the model uses a fixed
placeholder text). -/
def failureRecord (d : Decision) (msg : String) : ActionRecord :=
  ⟨d.action, recordTarget d, d.reasoning, d.confidence, false, some msg⟩

/-- The message of the `throw` at the end of `clickElementByDecision`
(`target_text || target_href` interpolated; JS renders the all-falsy case
as the string `undefined`). -/
def couldNotClickMsg (d : Decision) : String :=
  "Could not click element: " ++
    (match jsOr d.target_text d.target_href with
     | some s => s
     | none => "undefined")

/-- What `act` returned to the loop: `normal` = the implicit `undefined`
after the switch, `htmlData` = the early return of the `analyze` case,
`complete` = the early return `'complete'`, `error` = the `catch` return. -/
inductive ActResult
  | normal
  | htmlData
  | complete
  | error
  deriving Repr, DecidableEq

/-- Everything one `act` call did: the records it pushed onto
`memory.testHistory` (in order) and the URLs it added to
`memory.visitedPages` (via `this.navigate`). -/
structure ActOut where
  records : List ActionRecord
  result : ActResult
  visitedAdds : List String
  deriving Repr, DecidableEq

/-- `IntelligentTestingAgent.act`. Mirrors the source switch:
* `navigate`: `this.navigate(target_href || target_text)`; a falsy URL makes
  `page.goto` throw, as does a failed navigation — caught, failed record,
  return `'error'`; on success one success record.
* `click_element`: delegates to `clickElementByDecision`; its `throw` (or a
  throwing fallback navigation) is caught into a failed record.
* `fill_form`: throws only when `fill_data` is absent; otherwise the
  per-field loop swallows all errors and one success record is pushed.
* `analyze`: `return await this.analyzeCurrentPage()` — an early return
  that pushes no record; a throwing re-extraction is caught into a failed
  record.
* `complete`: early `return 'complete'` — no record.
* any other action value: the `default:` arm only logs, then falls through
  to the success-record push. -/
def act (se : StepEnv) (d : Decision) (els : List ElementDescriptor) : ActOut :=
  if d.action = "navigate" then
    match jsOr d.target_href d.target_text with
    | none => ⟨[failureRecord d "page.goto: url expected string"], .error, []⟩
    | some u =>
      if se.navOk u then ⟨[successRecord d], .normal, [u]⟩
      else ⟨[failureRecord d ("page.goto failed: " ++ u)], .error, []⟩
  else if d.action = "click_element" then
    match (clickElementByDecision se d els).outcome with
    | .clicked _ => ⟨[successRecord d], .normal, []⟩
    | .fallbackNav h ok =>
      if ok then ⟨[successRecord d], .normal, [h]⟩
      else ⟨[failureRecord d ("page.goto failed: " ++ h)], .error, []⟩
    | .failed => ⟨[failureRecord d (couldNotClickMsg d)], .error, []⟩
  else if d.action = "fill_form" then
    match d.fill_data with
    | none => ⟨[failureRecord d "No form data provided"], .error, []⟩
    | some _ => ⟨[successRecord d], .normal, []⟩
  else if d.action = "analyze" then
    if se.actSnapshotOk then ⟨[], .htmlData, []⟩
    else ⟨[failureRecord d "HTML extraction failed"], .error, []⟩
  else if d.action = "complete" then ⟨[], .complete, []⟩
  else ⟨[successRecord d], .normal, []⟩

/-- `this.memory`, restricted to the two components the run loop mutates
(`visitedPages` is a JS Set modelled as a duplicate-free insertion-ordered
list; `testHistory` is the append-only record list). -/
structure Memory where
  visitedPages : List String
  testHistory : List ActionRecord
  deriving Repr, DecidableEq

def applyVisits (l : List String) (adds : List String) : List String :=
  adds.foldl setAdd l

/-- How the `while` loop of `testWebsite` ended: `completed` = `break` on a
`'complete'` result, `maxed` = the `steps < maxSteps` guard failed,
`blew msg` = an uncaught exception (the loop-top `getCleanedHTML` call sits
outside every `try` of the loop body). -/
inductive LoopExit
  | completed
  | maxed
  | blew (msg : String)
  deriving Repr, DecidableEq

/-- The hard step cap of `testWebsite` (`const maxSteps = 15`). -/
def maxSteps : Nat := 15

/-- The `while (steps < maxSteps)` loop of `testWebsite`. `fuel` is the
number of remaining permitted iterations (`maxSteps - steps`), which is
exactly the semantics of the guard together with the unconditional
`steps++` at the top of the body; `env` gives the external world of each
step, indexed by the 1-based step number. Returns the final memory, the
final value of `steps`, and how the loop ended. -/
def loopGo (parse : String → Option Decision) (env : Nat → StepEnv) :
    Nat → Nat → Memory → Memory × Nat × LoopExit
  | 0, steps, m => (m, steps, .maxed)
  | fuel + 1, steps, m =>
    let steps' := steps + 1
    let se := env steps'
    if se.snapshotOk then
      let d := think parse se.oracleReply
      let out := act se d se.els
      let m' : Memory := ⟨applyVisits m.visitedPages out.visitedAdds,
                          m.testHistory ++ out.records⟩
      match out.result with
      | .complete => (m', steps', .completed)
      | _ => loopGo parse env fuel steps' m'
    else (m, steps', .blew "HTML extraction failed")

/-- `successRate` as computed by `generateReport`:
`Math.round((successful / total) * 100)` interpolated into a percent
string. With an empty history JS computes `0/0 = NaN`, `Math.round(NaN)`
is `NaN`, and the template renders the string `"NaN%"`. For positive
`total`, `Math.round x = floor (x + 1/2)`, i.e. `(200*s + t) / (2*t)` in
natural division. -/
def successRateStr (succ total : Nat) : String :=
  if total = 0 then "NaN%"
  else toString ((200 * succ + total) / (2 * total)) ++ "%"

/-- `IntelligentTestingAgent.getRecommendations`: a fixed string when no
action failed; otherwise one more oracle round-trip whose parsed
`reasoning` field is returned (best-effort — `think` never throws). -/
def getRecommendations (parse : String → Option Decision) (reply : Option String)
    (m : Memory) : Option String :=
  if (m.testHistory.filter (fun r => !r.success)).isEmpty then
    some "All tests passed successfully. The website appears to be functioning well."
  else (think parse reply).reasoning

/-- The structured report of `generateReport` (timestamps and the on-disk
JSON file are external; `issuesFound`/`findings` come from
`this.testResults`, which no code path of the source ever appends to, so
the count is always the length of the empty list). -/
structure ReportData where
  pagesVisited : Nat
  totalActions : Nat
  successfulActions : Nat
  failedActions : Nat
  successRate : String
  issuesFound : Nat
  visitedPages : List String
  testHistory : List ActionRecord
  recommendations : Option String
  deriving Repr, DecidableEq

/-- `IntelligentTestingAgent.generateReport`. -/
def generateReport (parse : String → Option Decision) (reply : Option String)
    (m : Memory) : ReportData :=
  let succ := m.testHistory.filter (fun r => r.success)
  let failed := m.testHistory.filter (fun r => !r.success)
  { pagesVisited := m.visitedPages.length
    totalActions := m.testHistory.length
    successfulActions := succ.length
    failedActions := failed.length
    successRate := successRateStr succ.length m.testHistory.length
    issuesFound := 0
    visitedPages := m.visitedPages
    testHistory := m.testHistory
    recommendations := getRecommendations parse reply m }

/-- Spec-level terminal classification of a finished session: `complete`
when the loop exited via the `break` on a `'complete'` result, otherwise
`maxStepsReached` (the source's only distinction between the two is which
branch left the loop; both fall through to `generateReport`). -/
inductive Terminal
  | complete
  | maxStepsReached
  deriving Repr, DecidableEq

/-- What the caller of `testWebsite` receives: `fatal msg` models the
rethrown exception of the outer `catch` (which only takes a screenshot
before `throw error`), `finished` a normally returned report together with
the number of loop iterations executed. -/
inductive SessionOutcome
  | fatal (msg : String)
  | finished (t : Terminal) (steps : Nat) (r : ReportData)
  deriving Repr, DecidableEq

/-- Whole-session external world: whether the seed `this.navigate(startUrl)`
succeeds, the per-step worlds, and the oracle reply of the best-effort
recommendations call made while building the report. -/
structure SessionEnv where
  seedNavOk : Bool
  step : Nat → StepEnv
  reportReply : Option String

/-- `IntelligentTestingAgent.testWebsite`. A failed seed navigation throws
out of the `try`, is caught, and is rethrown to the caller; on success the
seed URL has been added to `visitedPages` and the loop runs. A `blew` exit
of the loop is likewise rethrown (screenshot, then `throw error`). -/
def testWebsite (parse : String → Option Decision) (env : SessionEnv)
    (startUrl : String) : SessionOutcome :=
  if env.seedNavOk then
    let m0 : Memory := ⟨[startUrl], []⟩
    match loopGo parse env.step maxSteps 0 m0 with
    | (m, steps, .completed) =>
      .finished .complete steps (generateReport parse env.reportReply m)
    | (m, steps, .maxed) =>
      .finished .maxStepsReached steps (generateReport parse env.reportReply m)
    | (_, _, .blew msg) => .fatal msg
  else .fatal ("page.goto failed: " ++ startUrl)

/-- A session run paired with whether any exit path invoked
`browser.close()`. No statement of `testWebsite` calls `close` or
`cleanup`: the success path returns the report directly and the `catch`
block only takes a screenshot before rethrowing, so the flag is `false` on
every path. -/
structure SessionRun where
  outcome : SessionOutcome
  browserClosed : Bool
  deriving Repr, DecidableEq

def testWebsiteRun (parse : String → Option Decision) (env : SessionEnv)
    (startUrl : String) : SessionRun :=
  ⟨testWebsite parse env startUrl, false⟩

/-- `IntelligentTestingAgent.cleanup`: a separate method that closes the
browser iff one is present (`if (this.browser) await this.browser.close()`).
Returns whether `close` was called. -/
def cleanup (browserPresent : Bool) : Bool := browserPresent

/-! ## WebsiteCrawler (src/analyze-website.js) -/

/-- The crawler's frontier: `visitedUrls` and `foundUrls` are JS Sets,
modelled as duplicate-free insertion-ordered lists. -/
structure CrawlerState where
  visitedUrls : List String
  foundUrls : List String
  deriving Repr, DecidableEq

/-- The link-admission step inside `analyzePage`:
`if (!this.visitedUrls.has(link) && this.foundUrls.size < this.maxPages)
this.foundUrls.add(link)` — note the size bound is on `foundUrls` alone,
and `Set.add` of an existing member is a no-op. -/
def addLink (maxPages : Nat) (s : CrawlerState) (link : String) : CrawlerState :=
  if link ∉ s.visitedUrls ∧ s.foundUrls.length < maxPages then
    { s with foundUrls := setAdd s.foundUrls link }
  else s

/-- The `while (foundUrls.size > 0 && visitedUrls.size < maxPages)` loop of
`crawlWebsite`, producing the list of frontier states after every atomic
mutation (the `delete` of the popped URL, the `add` to `visitedUrls`, and
each single `foundUrls.add` of `analyzePage` — `links url` is the external
same-domain link list that `extractLinks` returns for that page; a page
whose analysis throws before link extraction contributes `[]`). `fuel`
bounds the number of loop iterations; the invariants below hold for every
fuel. -/
def crawlGo (maxPages : Nat) (links : String → List String) :
    Nat → CrawlerState → List CrawlerState
  | 0, _ => []
  | fuel + 1, s =>
    match s.foundUrls with
    | [] => []
    | current :: rest =>
      if s.visitedUrls.length < maxPages then
        let s1 : CrawlerState := ⟨s.visitedUrls, rest⟩
        if current ∈ s.visitedUrls then
          s1 :: crawlGo maxPages links fuel s1
        else
          let s2 : CrawlerState := ⟨s.visitedUrls ++ [current], rest⟩
          let ls := links current
          (s1 :: List.scanl (addLink maxPages) s2 ls) ++
            crawlGo maxPages links fuel (ls.foldl (addLink maxPages) s2)
      else []

/-- All frontier states of a `crawlWebsite` run, starting from the state
right after `this.foundUrls.add(startUrl)` on the fresh sets. -/
def crawlTrace (maxPages : Nat) (links : String → List String) (fuel : Nat)
    (startUrl : String) : List CrawlerState :=
  let s0 : CrawlerState := ⟨[], setAdd [] startUrl⟩
  s0 :: crawlGo maxPages links fuel s0

/-! ## Concrete instantiations of the external capabilities

Used by witnesses and counterexamples; theorems about the embedded code
quantify over arbitrary environments. -/

/-- Substring test used by the demo click model. -/
def strContains (hay pat : String) : Bool :=
  (List.range (hay.data.length + 1)).any (fun i => pat.data.isPrefixOf (hay.data.drop i))

/-- A live-DOM click model: the playwright click succeeds iff the page (here
identified with its element list) contains a matching element. -/
def clickSem (els : List ElementDescriptor) : Selector → Bool
  | .exactText t => els.any (fun e => e.text = t)
  | .partialText t => els.any (fun e => strContains e.text t)
  | .hrefExact h => els.any (fun e => e.tag = "a" && e.href = some h)
  | .hrefPath p => els.any (fun e => e.tag = "a" && e.href = some p)
  | .byId i => els.any (fun e => e.id = some i)
  | .byName n => els.any (fun e => e.name = some n)
  | .byTagType tag ty => els.any (fun e => e.tag = tag && e.type = some ty)

/-- `JSON.parse` model that fails on every input (the oracle talks prose). -/
def parseNever : String → Option Decision := fun _ => none

/-- A step on which everything benign succeeds and the oracle answers free
text that is not JSON. -/
def stepEnvQuiet : StepEnv :=
  { snapshotOk := true
    els := []
    oracleReply := some "Sure, let me look around the page first."
    click := fun _ => false
    parseURL := fun _ => none
    navOk := fun _ => false
    fill := fun _ _ => false
    actSnapshotOk := true }

def envAllOk : SessionEnv := ⟨true, fun _ => stepEnvQuiet, none⟩

/-- A step whose loop-top `getCleanedHTML` throws. -/
def stepEnvBroken : StepEnv := { stepEnvQuiet with snapshotOk := false }

def envSnapFail : SessionEnv := ⟨true, fun _ => stepEnvBroken, none⟩

def decisionAnalyze : Decision :=
  ⟨"analyze", some "keep exploring", none, none, none, none, some "medium"⟩

def decisionComplete : Decision :=
  ⟨"complete", some "done testing", none, none, none, none, some "high"⟩

/-- `JSON.parse` model for a scripted oracle that alternates between two
fixed well-formed replies. -/
def parseScripted : String → Option Decision := fun s =>
  if s = "\x7b\"action\": \"complete\"\x7d" then some decisionComplete
  else if s = "\x7b\"action\": \"analyze\"\x7d" then some decisionAnalyze
  else none

def stepEnvAnalyze : StepEnv :=
  { stepEnvQuiet with oracleReply := some "\x7b\"action\": \"analyze\"\x7d" }

def stepEnvComplete : StepEnv :=
  { stepEnvQuiet with oracleReply := some "\x7b\"action\": \"complete\"\x7d" }

/-- Oracle says `analyze` on steps 1 and 2 and `complete` on step 3. -/
def envCompleteAt3 : SessionEnv :=
  ⟨true, fun i => if i = 3 then stepEnvComplete else stepEnvAnalyze, none⟩

/-- A parsed oracle object whose `action` is outside the five kinds. -/
def decisionExplore : Decision :=
  ⟨"explore", some "let me wander around", none, none, none, none, some "high"⟩

def exploreRaw : String := "\x7b\"action\": \"explore\"\x7d"

def parseExplore : String → Option Decision := fun s =>
  if s = exploreRaw then some decisionExplore else none

/-- Snapshot of the C2 scenario: a button with exact text `Sign Up` plus
non-matching elements. -/
def elsSignUp : List ElementDescriptor :=
  [⟨"button", "Sign Up", none, none, none, none⟩,
   ⟨"button", "Cancel", none, none, none, none⟩,
   ⟨"a", "About us", none, none, none, some "/about"⟩]

def seSignUp : StepEnv :=
  { stepEnvQuiet with els := elsSignUp, click := clickSem elsSignUp }

def dSignUp : Decision :=
  ⟨"click_element", some "test the signup flow", some "Sign Up",
   none, none, none, some "high"⟩

/-- A fully-populated click Decision exercising every strategy tier. -/
def dFull : Decision :=
  ⟨"click_element", some "log in", some "Log In",
   some "https://site.test/login?x=1", some ⟨some "login-btn"⟩, none, some "high"⟩

def elFull : ElementDescriptor :=
  ⟨"button", "Log In", some "login-btn", some "login", some "submit", none⟩

/-- `new URL` model defined at the one absolute URL the demos use. -/
def parseURLDemo : String → Option String := fun s =>
  if s = "https://site.test/login?x=1" then some "/login" else none

/-- A click Decision with no `href` that no strategy can resolve. -/
def dGhost : Decision :=
  ⟨"click_element", some "try the ghost button", some "Ghost Button",
   none, none, none, some "low"⟩

def decisionGoHome : Decision :=
  ⟨"navigate", some "go home", none, some "https://site.test/", none, none, some "high"⟩

/-- Link structure of the C9 scenario: the seed page exposes five distinct
same-domain links; every other page exposes none. -/
def seedLinks : String → List String := fun u =>
  if u = "s" then ["l1", "l2", "l3", "l4", "l5"] else []

/-- The report produced by a demo session in which no act call ever pushed a
record: one visited page, empty history, and the `0/0` success rate. -/
def reportQuietRun : ReportData :=
  { pagesVisited := 1
    totalActions := 0
    successfulActions := 0
    failedActions := 0
    successRate := "NaN%"
    issuesFound := 0
    visitedPages := ["https://target.test/"]
    testHistory := []
    recommendations :=
      some "All tests passed successfully. The website appears to be functioning well." }

/-- A test history of three successes and one failure. -/
def hist31 : List ActionRecord :=
  [successRecord decisionAnalyze, successRecord decisionGoHome,
   successRecord decisionComplete, failureRecord dGhost (couldNotClickMsg dGhost)]

/-- The invariant maintained by every frontier mutation of the crawler:
both sets are duplicate-free, the visited set is within the page bound,
and no URL is simultaneously visited and pending. -/
def CrawlInv (maxPages : Nat) (s : CrawlerState) : Prop :=
  s.visitedUrls.Nodup ∧ s.foundUrls.Nodup ∧
    s.visitedUrls.length ≤ maxPages ∧
    ∀ u ∈ s.visitedUrls, u ∉ s.foundUrls

/-! ## Helper lemmas -/

theorem mem_setAdd {l : List String} {x y : String} :
    y ∈ setAdd l x ↔ y ∈ l ∨ y = x := by
  unfold setAdd
  split
  · rename_i hx
    constructor
    · exact Or.inl
    · rintro (h | rfl)
      · exact h
      · exact hx
  · simp

theorem setAdd_nodup {l : List String} (x : String) (h : l.Nodup) :
    (setAdd l x).Nodup := by
  unfold setAdd
  split
  · exact h
  · rename_i hx
    rw [← List.concat_eq_append]
    exact h.concat hx

theorem addLink_inv {mp : Nat} {s : CrawlerState} (h : CrawlInv mp s) (link : String) :
    CrawlInv mp (addLink mp s link) := by
  obtain ⟨hv, hf, hlen, hdisj⟩ := h
  unfold addLink
  split
  · rename_i hc
    refine ⟨hv, setAdd_nodup link hf, hlen, ?_⟩
    intro u hu hmem
    rcases mem_setAdd.mp hmem with h1 | rfl
    · exact hdisj u hu h1
    · exact hc.1 hu
  · exact ⟨hv, hf, hlen, hdisj⟩

theorem foldl_addLink_inv {mp : Nat} (ls : List String) :
    ∀ s : CrawlerState, CrawlInv mp s → CrawlInv mp (ls.foldl (addLink mp) s) := by
  induction ls with
  | nil => intro s h; exact h
  | cons a as ih => intro s h; exact ih _ (addLink_inv h a)

theorem scanl_addLink_inv {mp : Nat} (ls : List String) :
    ∀ s : CrawlerState, CrawlInv mp s →
      ∀ t ∈ List.scanl (addLink mp) s ls, CrawlInv mp t := by
  induction ls with
  | nil =>
    intro s h t ht
    rw [List.scanl_nil] at ht
    rcases List.mem_singleton.mp ht with rfl
    exact h
  | cons a as ih =>
    intro s h t ht
    rw [List.scanl_cons] at ht
    rcases List.mem_cons.mp ht with rfl | ht'
    · exact h
    · exact ih _ (addLink_inv h a) t ht'

theorem crawlGo_inv {mp : Nat} (links : String → List String) (fuel : Nat) :
    ∀ s : CrawlerState, CrawlInv mp s →
      ∀ t ∈ crawlGo mp links fuel s, CrawlInv mp t := by
  induction fuel with
  | zero => intro s _ t ht; simp [crawlGo] at ht
  | succ fuel ih =>
    intro s hs t ht
    obtain ⟨hv, hf, hlen, hdisj⟩ := hs
    rw [crawlGo] at ht
    rcases hfound : s.foundUrls with _ | ⟨current, rest⟩
    · rw [hfound] at ht; simp at ht
    · rw [hfound] at ht
      simp only at ht
      by_cases hvl : s.visitedUrls.length < mp
      · rw [if_pos hvl] at ht
        have hfc : (current :: rest).Nodup := hfound ▸ hf
        have hrest_nodup : rest.Nodup := (List.nodup_cons.mp hfc).2
        have hcur_rest : current ∉ rest := (List.nodup_cons.mp hfc).1
        have hdisj1 : ∀ u ∈ s.visitedUrls, u ∉ rest := by
          intro u hu hur
          exact hdisj u hu (hfound ▸ List.mem_cons_of_mem _ hur)
        have hs1 : CrawlInv mp ⟨s.visitedUrls, rest⟩ := ⟨hv, hrest_nodup, hlen, hdisj1⟩
        by_cases hcv : current ∈ s.visitedUrls
        · rw [if_pos hcv] at ht
          rcases List.mem_cons.mp ht with rfl | ht'
          · exact hs1
          · exact ih _ hs1 t ht'
        · rw [if_neg hcv] at ht
          have hs2 : CrawlInv mp ⟨s.visitedUrls ++ [current], rest⟩ := by
            refine ⟨?_, hrest_nodup, ?_, ?_⟩
            · rw [← List.concat_eq_append]
              exact hv.concat hcv
            · simpa using hvl
            · intro u hu
              rcases List.mem_append.mp hu with h1 | h2
              · exact hdisj1 u h1
              · rcases List.mem_singleton.mp h2 with rfl
                exact hcur_rest
          rcases List.mem_append.mp ht with h1 | h2
          · rcases List.mem_cons.mp h1 with rfl | h1'
            · exact hs1
            · exact scanl_addLink_inv _ _ hs2 t h1'
          · exact ih _ (foldl_addLink_inv _ _ hs2) t h2
      · rw [if_neg hvl] at ht
        simp at ht

/-! ## Claim C4 -/

/-- Claim C4 (confirmed): at every point of every crawl execution the
frontier satisfies both invariants — the visited set never exceeds
`maxPages` and no URL is simultaneously visited and pending. Quantified
over any page bound, any link structure of the site, and any number of
loop iterations; `crawlTrace` records the frontier after every atomic
mutation of the run. -/
theorem c4_frontier_invariants :
    ∀ (maxPages : Nat) (links : String → List String) (fuel : Nat) (startUrl : String),
      ∀ s ∈ crawlTrace maxPages links fuel startUrl,
        s.visitedUrls.length ≤ maxPages ∧ ∀ u ∈ s.visitedUrls, u ∉ s.foundUrls := by
  intro mp links fuel url s hs
  have h0 : CrawlInv mp ⟨[], setAdd [] url⟩ := by
    refine ⟨List.nodup_nil, ?_, by simp, by simp⟩
    simp [setAdd]
  simp only [crawlTrace] at hs
  rcases List.mem_cons.mp hs with rfl | hs'
  · exact ⟨h0.2.2.1, h0.2.2.2⟩
  · have h := crawlGo_inv links fuel _ h0 s hs'
    exact ⟨h.2.2.1, h.2.2.2⟩

/-- Witness for C4: a concrete mid-run frontier state of the `maxPages = 2`
crawl of the five-link site satisfies both invariants. -/
theorem c4_frontier_invariants_witness :
    (⟨["s"], ["l1", "l2"]⟩ : CrawlerState).visitedUrls.length ≤ 2 ∧
      ∀ u ∈ (⟨["s"], ["l1", "l2"]⟩ : CrawlerState).visitedUrls,
        u ∉ (⟨["s"], ["l1", "l2"]⟩ : CrawlerState).foundUrls :=
  c4_frontier_invariants 2 seedLinks 10 "s" ⟨["s"], ["l1", "l2"]⟩ (by decide)

/-! ## Claim C9 -/

/-- Claim C9 counterexample: the add guard is NOT
`|visited| + |pending| < maxPages`. In the reachable state
`visited = ["a"], pending = ["b"]` of a `maxPages = 2` crawl we have
`|visited| + |pending| = 2`, yet `add "c"` still inserts, because the
source only bounds `foundUrls.size` alone. -/
theorem c9_add_guard_refuted :
    addLink 2 ⟨["a"], ["b"]⟩ "c" = ⟨["a"], ["b", "c"]⟩ ∧
      ¬((⟨["a"], ["b"]⟩ : CrawlerState).visitedUrls.length +
          (⟨["a"], ["b"]⟩ : CrawlerState).foundUrls.length < 2) ∧
      (⟨["a"], ["b"]⟩ : CrawlerState) ∈
        crawlTrace 2 (fun u => if u = "a" then ["b", "c"] else []) 10 "a" := by
  refine ⟨by decide, by decide, by decide⟩

/-- Claim C9 (corrected): `add` inserts a link into pending iff the link is
not already visited, not already pending, and `|pending| < maxPages` — the
bound is on the pending set alone, enforced eagerly per insertion; the
visited size plays no role in the guard. The scenario consequences stand:
with `maxPages = 2` and a seed page exposing five distinct links, at most
2 URLs ever enter `visited`, and links `l3`, `l4`, `l5` are discarded
without ever being queued at any point of the run. -/
theorem c9_add_guard_and_scenario :
    (∀ (mp : Nat) (s : CrawlerState) (link : String),
      addLink mp s link ≠ s →
        link ∉ s.visitedUrls ∧ link ∉ s.foundUrls ∧ s.foundUrls.length < mp) ∧
    (∀ (mp : Nat) (s : CrawlerState) (link : String),
      link ∉ s.visitedUrls → link ∉ s.foundUrls → s.foundUrls.length < mp →
        addLink mp s link = ⟨s.visitedUrls, s.foundUrls ++ [link]⟩) ∧
    (∀ s ∈ crawlTrace 2 seedLinks 10 "s",
      s.visitedUrls.length ≤ 2 ∧
        "l3" ∉ s.foundUrls ∧ "l4" ∉ s.foundUrls ∧ "l5" ∉ s.foundUrls) := by
  refine ⟨?_, ?_, by decide⟩
  · intro mp s link hne
    unfold addLink at hne
    split at hne
    · rename_i hc
      refine ⟨hc.1, ?_, hc.2⟩
      intro hmem
      apply hne
      show CrawlerState.mk s.visitedUrls (setAdd s.foundUrls link) = s
      unfold setAdd
      rw [if_pos hmem]
    · exact absurd rfl hne
  · intro mp s link hnv hnf hlt
    unfold addLink
    rw [if_pos ⟨hnv, hlt⟩]
    show CrawlerState.mk s.visitedUrls (setAdd s.foundUrls link) = _
    unfold setAdd
    rw [if_neg hnf]

/-- Witness for C9: the guard characterization applied at a concrete
frontier. -/
theorem c9_add_guard_and_scenario_witness :
    addLink 2 ⟨["a"], ["b"]⟩ "c" = ⟨["a"], ["b", "c"]⟩ :=
  c9_add_guard_and_scenario.2.1 2 ⟨["a"], ["b"]⟩ "c"
    (by decide) (by decide) (by decide)

/-! ## Run-loop helper lemmas -/

theorem loopGo_steps_le (parse : String → Option Decision) (env : Nat → StepEnv)
    (fuel : Nat) :
    ∀ (steps : Nat) (m : Memory),
      (loopGo parse env fuel steps m).2.1 ≤ steps + fuel := by
  induction fuel with
  | zero =>
    intro steps m
    show steps ≤ steps + 0
    omega
  | succ fuel ih =>
    intro steps m
    simp only [loopGo]
    split
    · split
      · show steps + 1 ≤ steps + (fuel + 1)
        omega
      · exact le_trans (ih (steps + 1) _) (by omega)
    · show steps + 1 ≤ steps + (fuel + 1)
      omega

theorem loopGo_exit_ok (parse : String → Option Decision) (env : Nat → StepEnv)
    (hok : ∀ i, (env i).snapshotOk = true) (fuel : Nat) :
    ∀ (steps : Nat) (m : Memory),
      (loopGo parse env fuel steps m).2.2 = .completed ∨
        (loopGo parse env fuel steps m).2.2 = .maxed := by
  induction fuel with
  | zero => intro steps m; right; rfl
  | succ fuel ih =>
    intro steps m
    simp only [loopGo, hok]
    rw [if_pos trivial]
    split
    · left; rfl
    · exact ih (steps + 1) _

/-! ## Claim C1 -/

/-- Claim C1 counterexample: with initialization and seed navigation both
successful, a snapshot-extraction failure on step 1 (the loop-top
`getCleanedHTML` call has no surrounding `try` inside the loop) escapes the
loop; `testWebsite`'s outer `catch` takes a screenshot and rethrows, so the
caller receives the exception instead of a SessionReport. -/
theorem c1_snapshot_failure_escapes_loop :
    testWebsite parseNever envSnapFail "https://target.test/" =
        .fatal "HTML extraction failed" ∧
      envSnapFail.seedNavOk = true :=
  ⟨rfl, rfl⟩

/-- Claim C1 (corrected): once the seed navigation succeeds, oracle
failures and action-execution failures of every step are caught at their
component boundaries and the caller receives a finished report — provided
each step's snapshot extraction also succeeds; a seed-navigation failure is
fatal. (What the counterexample removes from the original claim: a mid-loop
snapshot-extraction failure is NOT caught — it is rethrown to the caller
after a diagnostic screenshot.) -/
theorem c1_nonfatal_failures_confined :
    (∀ (parse : String → Option Decision) (env : SessionEnv) (url : String),
      env.seedNavOk = true →
      (∀ i, (env.step i).snapshotOk = true) →
      ∃ t steps r, testWebsite parse env url = .finished t steps r) ∧
    (∀ (parse : String → Option Decision) (env : SessionEnv) (url : String),
      env.seedNavOk = false →
      testWebsite parse env url = .fatal ("page.goto failed: " ++ url)) := by
  constructor
  · intro parse env url hseed hsnap
    have hex := loopGo_exit_ok parse env.step hsnap maxSteps 0 ⟨[url], []⟩
    unfold testWebsite
    rw [hseed, if_pos rfl]
    simp only
    rcases hl : loopGo parse env.step maxSteps 0 ⟨[url], []⟩ with ⟨m, steps, ex⟩
    rw [hl] at hex
    cases ex with
    | completed => exact ⟨.complete, steps, _, rfl⟩
    | maxed => exact ⟨.maxStepsReached, steps, _, rfl⟩
    | blew msg => simp at hex
  · intro parse env url hseed
    unfold testWebsite
    rw [hseed]
    rfl

/-- Witness for C1: a session whose oracle only ever produces unparseable
prose (so every decision degrades to `analyze`) still hands the caller a
finished report. -/
theorem c1_nonfatal_failures_confined_witness :
    ∃ t steps r,
      testWebsite parseNever envAllOk "https://target.test/" = .finished t steps r :=
  c1_nonfatal_failures_confined.1 parseNever envAllOk "https://target.test/" rfl
    (fun _ => rfl)

/-! ## Claim C5 -/

/-- Claim C5 (confirmed): the loop executes at most `maxSteps = 15`
iterations, and a `complete` Decision stops it at the step that executed
it, in the COMPLETE terminal state. Conjuncts: (1) the loop can add at most
`fuel` iterations to the step counter; (2) any finished session ran at most
`maxSteps` iterations; (3) generally, when the next step's Decision
executes to `'complete'`, the loop returns right there with the step count
incremented once and the `completed` exit; (4) the claim's scenario — the
oracle says `complete` on step 3 of a 15-step run, and the session ends at
step 3 in COMPLETE, not MAX_STEPS_REACHED. -/
theorem c5_step_cap_and_complete :
    (∀ (parse : String → Option Decision) (env : Nat → StepEnv)
        (fuel steps : Nat) (m : Memory),
      (loopGo parse env fuel steps m).2.1 ≤ steps + fuel) ∧
    (∀ (parse : String → Option Decision) (env : SessionEnv) (url : String)
        (t : Terminal) (steps : Nat) (r : ReportData),
      testWebsite parse env url = .finished t steps r → steps ≤ maxSteps) ∧
    (∀ (parse : String → Option Decision) (env : Nat → StepEnv)
        (fuel steps : Nat) (m : Memory),
      (env (steps + 1)).snapshotOk = true →
      (act (env (steps + 1)) (think parse (env (steps + 1)).oracleReply)
          (env (steps + 1)).els).result = .complete →
      ∃ m', loopGo parse env (fuel + 1) steps m = (m', steps + 1, .completed)) ∧
    (∃ r, testWebsite parseScripted envCompleteAt3 "https://target.test/" =
      .finished .complete 3 r) := by
  refine ⟨loopGo_steps_le, ?_, ?_, ⟨reportQuietRun, by decide⟩⟩
  · intro parse env url t steps r h
    unfold testWebsite at h
    by_cases hseed : env.seedNavOk = true
    · rw [hseed, if_pos rfl] at h
      simp only at h
      have hle := loopGo_steps_le parse env.step maxSteps 0 ⟨[url], []⟩
      rcases hl : loopGo parse env.step maxSteps 0 ⟨[url], []⟩ with ⟨m, st, ex⟩
      rw [hl] at h hle
      simp only at hle
      cases ex with
      | completed =>
        simp only at h
        cases h
        omega
      | maxed =>
        simp only at h
        cases h
        omega
      | blew msg => simp at h
    · rw [Bool.not_eq_true] at hseed
      rw [hseed] at h
      simp at h
  · intro parse env fuel steps m hsnap hres
    simp only [loopGo, hsnap]
    rw [if_pos trivial]
    simp only [hres]
    exact ⟨_, rfl⟩

/-- Witness for C5: a step whose oracle immediately answers `complete`
stops a fresh loop after exactly one iteration with the `completed` exit. -/
theorem c5_step_cap_and_complete_witness :
    ∃ m', loopGo parseScripted (fun _ => stepEnvComplete) 1 0 ⟨[], []⟩ =
      (m', 1, .completed) :=
  c5_step_cap_and_complete.2.2.1 parseScripted (fun _ => stepEnvComplete) 0 0
    ⟨[], []⟩ (by decide) (by decide)

/-! ## Claim C3 -/

/-- Claim C3 (confirmed): any oracle reply that fails to parse after fence
stripping — and likewise a throwing oracle request — yields the default
Decision, whose action is `analyze` with `confidence = low` and a reasoning
string; fence-wrapped text is stripped before parsing; and a session whose
oracle only ever returns non-JSON prose proceeds through all 15 steps to a
finished report instead of aborting. -/
theorem c3_parse_failure_defaults :
    (∀ (parse : String → Option Decision) (raw : String),
      parse (cleanOpenAIResponse raw) = none →
      think parse (some raw) = defaultDecision) ∧
    (∀ parse : String → Option Decision, think parse none = defaultDecision) ∧
    (defaultDecision.action = "analyze" ∧ defaultDecision.confidence = some "low" ∧
      defaultDecision.reasoning.isSome = true) ∧
    (cleanOpenAIResponse "```json\nnot valid json at all\n```" =
      "not valid json at all") ∧
    (∃ r, testWebsite parseNever envAllOk "https://target.test/" =
      .finished .maxStepsReached 15 r) := by
  refine ⟨?_, fun _ => rfl, ⟨rfl, rfl, rfl⟩, by decide, ⟨reportQuietRun, by decide⟩⟩
  intro parse raw h
  show (match parse (cleanOpenAIResponse raw) with
        | none => defaultDecision
        | some d => d) = defaultDecision
  rw [h]

/-- Witness for C3: the concrete prose reply of the demo environment
defaults to the `analyze`/`low` Decision. -/
theorem c3_parse_failure_defaults_witness :
    think parseNever (some "Sure, let me look around the page first.") =
      defaultDecision :=
  c3_parse_failure_defaults.1 parseNever
    "Sure, let me look around the page first." rfl

/-! ## Strategy-loop helper lemmas -/

theorem firstSuccess_all_false (click : Selector → Bool) :
    ∀ l : List Selector, (∀ x ∈ l, click x = false) →
      firstSuccess click l = (l, none) := by
  intro l
  induction l with
  | nil => intro _; rfl
  | cons a rest ih =>
    intro h
    have ha : click a = false := h a (List.mem_cons_self a rest)
    have ih' := ih (fun x hx => h x (List.mem_cons_of_mem a hx))
    simp [firstSuccess, ha, ih']

theorem firstSuccess_some (click : Selector → Bool) :
    ∀ (l att : List Selector) (s : Selector),
      firstSuccess click l = (att, some s) →
      click s = true ∧ ∃ pre, att = pre ++ [s] ∧ (pre ++ [s]) <+: l ∧
        ∀ x ∈ pre, click x = false := by
  intro l
  induction l with
  | nil => intro att s h; simp [firstSuccess] at h
  | cons a rest ih =>
    intro att s h
    by_cases ha : click a = true
    · rw [firstSuccess, if_pos ha] at h
      injection h with h1 h2
      injection h2 with h2
      subst h1
      subst h2
      exact ⟨ha, [], rfl, ⟨rest, rfl⟩, by simp⟩
    · rw [Bool.not_eq_true] at ha
      rw [firstSuccess, if_neg (by simp [ha])] at h
      rcases hr : firstSuccess click rest with ⟨att', r⟩
      rw [hr] at h
      dsimp only at h
      injection h with h1 h2
      subst h1
      cases r with
      | none => exact absurd h2 (by simp)
      | some sr =>
        injection h2 with h2
        subst h2
        obtain ⟨hc, pre, hpre, hpfx, hall⟩ := ih att' sr hr
        refine ⟨hc, a :: pre, by simp [hpre], ?_, ?_⟩
        · obtain ⟨t, ht⟩ := hpfx
          exact ⟨t, congrArg (List.cons a) ht⟩
        · intro x hx
          rcases List.mem_cons.mp hx with rfl | hx'
          · exact ha
          · exact hall x hx'

/-! ## Claim C2 -/

/-- Claim C2 (confirmed): the click resolver evaluates its strategies
strictly in the order (1) exact text, (2) partial text, (3) exact href,
(4) path-only href, (5) selectors from the matched element's id/name/type,
(6) direct navigation to the href as last resort, stopping at the first
success. Conjuncts: (1) on a fully-populated Decision all tiers are built
in exactly that order; (2)/(3) the strategy loop stops at the first
successful selector, everything attempted before it having failed, and a
total failure attempts every selector; (4) the claim's scenario — for
`{action: click_element, target_text: "Sign Up"}` against a snapshot whose
button carries that exact text, only strategy (1) is attempted; (5) when
every strategy fails and no `href` exists, the resolver throws and `act`
converts the throw into a failed ActionRecord instead of propagating it. -/
theorem c2_click_strategy_order :
    (clickStrategies parseURLDemo dFull [elFull] =
      [.exactText "Log In", .partialText "Log In",
       .hrefExact "https://site.test/login?x=1", .hrefPath "/login",
       .byId "login-btn", .byName "login", .byTagType "button" "submit"]) ∧
    (∀ (click : Selector → Bool) (l att : List Selector) (s : Selector),
      firstSuccess click l = (att, some s) →
      click s = true ∧ ∃ pre, att = pre ++ [s] ∧ (pre ++ [s]) <+: l ∧
        ∀ x ∈ pre, click x = false) ∧
    (∀ (click : Selector → Bool) (l : List Selector),
      (∀ x ∈ l, click x = false) → firstSuccess click l = (l, none)) ∧
    (clickElementByDecision seSignUp dSignUp elsSignUp =
      ⟨[.exactText "Sign Up"], .clicked (.exactText "Sign Up")⟩) ∧
    (∀ (se : StepEnv) (d : Decision) (els : List ElementDescriptor),
      (∀ x ∈ clickStrategies se.parseURL d els, se.click x = false) →
      d.target_href = none →
      clickElementByDecision se d els =
          ⟨clickStrategies se.parseURL d els, .failed⟩ ∧
        (d.action = "click_element" →
          act se d els = ⟨[failureRecord d (couldNotClickMsg d)], .error, []⟩)) := by
  refine ⟨by decide, firstSuccess_some, firstSuccess_all_false, by decide, ?_⟩
  intro se d els hall hhref
  have hce : clickElementByDecision se d els =
      ⟨clickStrategies se.parseURL d els, .failed⟩ := by
    simp only [clickElementByDecision, firstSuccess_all_false se.click _ hall, hhref]
  refine ⟨hce, ?_⟩
  intro hact
  simp [act, hact, hce]

/-- Witness for C2: the unresolved-click branch applied at a concrete
Decision with no matching element and no href. -/
theorem c2_click_strategy_order_witness :
    clickElementByDecision stepEnvQuiet dGhost [] =
        ⟨clickStrategies stepEnvQuiet.parseURL dGhost [], .failed⟩ ∧
      act stepEnvQuiet dGhost [] =
        ⟨[failureRecord dGhost (couldNotClickMsg dGhost)], .error, []⟩ := by
  have h := c2_click_strategy_order.2.2.2.2 stepEnvQuiet dGhost []
    (by decide) (by decide)
  exact ⟨h.1, h.2 (by decide)⟩

/-! ## Claim C6 -/

/-- Claim C6 counterexample: `complete` and `analyze` are among the five
Decision kinds, yet their successful execution paths return from `act`
before the record push — zero ActionRecords are appended, refuting "every
execution path appends exactly one". -/
theorem c6_no_record_for_complete_or_analyze :
    decisionComplete.action ∈ actionKinds ∧
      (act stepEnvQuiet decisionComplete []).records = [] ∧
      decisionAnalyze.action ∈ actionKinds ∧
      (act stepEnvQuiet decisionAnalyze []).records = [] :=
  ⟨by decide, by decide, by decide, by decide⟩

/-- Claim C6 (corrected): `navigate`, `click_element` and `fill_form`
executions append exactly one ActionRecord (success or failure), and an
unrecognized action appends exactly one success record; but `analyze`
appends a record only when its re-extraction fails (zero on success), and
`complete` never appends one — both return early before the record push. -/
theorem c6_record_counts :
    ∀ (se : StepEnv) (d : Decision) (els : List ElementDescriptor),
      ((d.action = "navigate" ∨ d.action = "click_element" ∨ d.action = "fill_form") →
        (act se d els).records.length = 1) ∧
      (d.action = "analyze" →
        (act se d els).records.length = if se.actSnapshotOk then 0 else 1) ∧
      (d.action = "complete" → (act se d els).records = []) ∧
      (d.action ∉ actionKinds → (act se d els).records = [successRecord d]) := by
  intro se d els
  refine ⟨?_, ?_, ?_, ?_⟩
  · rintro (h | h | h)
    · simp only [act, h]
      rw [if_pos trivial]
      rcases jsOr d.target_href d.target_text with _ | u
      · rfl
      · dsimp only
        split <;> rfl
    · simp only [act, h]
      rw [if_neg (by decide : ¬("click_element" = "navigate")), if_pos trivial]
      rcases (clickElementByDecision se d els).outcome with s | ⟨href, ok⟩ | _
      · rfl
      · dsimp only
        split <;> rfl
      · rfl
    · simp only [act, h]
      rw [if_neg (by decide : ¬("fill_form" = "navigate")),
        if_neg (by decide : ¬("fill_form" = "click_element")), if_pos trivial]
      rcases d.fill_data with _ | data <;> rfl
  · intro h
    simp only [act, h]
    rw [if_neg (by decide : ¬("analyze" = "navigate")),
      if_neg (by decide : ¬("analyze" = "click_element")),
      if_neg (by decide : ¬("analyze" = "fill_form")), if_pos trivial]
    by_cases hs : se.actSnapshotOk = true
    · rw [if_pos hs, if_pos hs]
      rfl
    · rw [if_neg hs, if_neg hs]
      rfl
  · intro h
    simp only [act, h]
    rw [if_neg (by decide : ¬("complete" = "navigate")),
      if_neg (by decide : ¬("complete" = "click_element")),
      if_neg (by decide : ¬("complete" = "fill_form")),
      if_neg (by decide : ¬("complete" = "analyze")), if_pos trivial]
  · intro h
    have h1 : ¬(d.action = "navigate") := fun e => h (by rw [e]; decide)
    have h2 : ¬(d.action = "click_element") := fun e => h (by rw [e]; decide)
    have h3 : ¬(d.action = "fill_form") := fun e => h (by rw [e]; decide)
    have h4 : ¬(d.action = "analyze") := fun e => h (by rw [e]; decide)
    have h5 : ¬(d.action = "complete") := fun e => h (by rw [e]; decide)
    simp only [act]
    rw [if_neg h1, if_neg h2, if_neg h3, if_neg h4, if_neg h5]

/-- Witness for C6: a concrete `navigate` execution appends exactly one
record. -/
theorem c6_record_counts_witness :
    (act stepEnvQuiet decisionGoHome []).records.length = 1 :=
  (c6_record_counts stepEnvQuiet decisionGoHome []).1 (Or.inl rfl)

/-! ## Claim C7 -/

/-- Claim C7 (code bug): the success rate is
`Math.round(successful / total * 100)` rendered as a percent string —
exactly `75%` for three successes and one failure — but on an empty history
the source divides `0 / 0`, `Math.round(NaN)` is `NaN`, and the report
carries the string `NaN%` instead of the specified "not applicable". -/
theorem c7_success_rate_divide_by_zero :
    successRateStr 3 4 = "75%" ∧
      (generateReport parseNever none ⟨["u"], hist31⟩).successRate = "75%" ∧
      (generateReport parseNever none ⟨["u"], []⟩).successRate = "NaN%" ∧
      "NaN%" ≠ "not applicable" :=
  ⟨by decide, by decide, by decide, by decide⟩

/-! ## Claim C8 -/

/-- Claim C8 counterexample: an oracle reply that parses to
`{action: "explore"}` — a value outside the five kinds — is returned by
`think` completely unchanged (no normalization to `analyze`/`low`) and is
then acted on: the `default:` arm of `act` records it as a successful
action. -/
theorem c8_unknown_action_reaches_executor :
    think parseExplore (some exploreRaw) = decisionExplore ∧
      decisionExplore.action ∉ actionKinds ∧
      decisionExplore.action ≠ "analyze" ∧
      decisionExplore.confidence ≠ some "low" ∧
      (act stepEnvQuiet decisionExplore []).records = [successRecord decisionExplore] :=
  ⟨by decide, by decide, by decide, by decide, by decide⟩

/-- Claim C8 (corrected): `think` performs no validation of the `action`
field — any successfully parsed Decision is returned unchanged, and an
out-of-range action reaches the executor, whose `default:` arm appends one
success record and continues; the `analyze`/`low` Decision arises only from
parse or request failures, not from out-of-range action values. -/
theorem c8_unknown_action_passthrough :
    (∀ (parse : String → Option Decision) (raw : String) (d : Decision),
      parse (cleanOpenAIResponse raw) = some d → think parse (some raw) = d) ∧
    (∀ (se : StepEnv) (d : Decision) (els : List ElementDescriptor),
      d.action ∉ actionKinds →
      act se d els = ⟨[successRecord d], .normal, []⟩) := by
  constructor
  · intro parse raw d h
    show (match parse (cleanOpenAIResponse raw) with
          | none => defaultDecision
          | some d => d) = d
    rw [h]
  · intro se d els h
    have h1 : ¬(d.action = "navigate") := fun e => h (by rw [e]; decide)
    have h2 : ¬(d.action = "click_element") := fun e => h (by rw [e]; decide)
    have h3 : ¬(d.action = "fill_form") := fun e => h (by rw [e]; decide)
    have h4 : ¬(d.action = "analyze") := fun e => h (by rw [e]; decide)
    have h5 : ¬(d.action = "complete") := fun e => h (by rw [e]; decide)
    simp only [act]
    rw [if_neg h1, if_neg h2, if_neg h3, if_neg h4, if_neg h5]

/-- Witness for C8: the passthrough applied at the concrete `explore`
reply. -/
theorem c8_unknown_action_passthrough_witness :
    think parseExplore (some exploreRaw) = decisionExplore ∧
      act stepEnvQuiet decisionExplore [] =
        ⟨[successRecord decisionExplore], .normal, []⟩ :=
  ⟨c8_unknown_action_passthrough.1 parseExplore exploreRaw decisionExplore (by decide),
   c8_unknown_action_passthrough.2 stepEnvQuiet decisionExplore [] (by decide)⟩

/-! ## Claim C10 -/

/-- Claim C10 counterexample: a session that hits a fatal mid-run error
returns control to the caller with the browser still open — `testWebsite`
has no cleanup on its error path (the `catch` only screenshots and
rethrows); the normal-completion path leaves the browser open too. -/
theorem c10_browser_left_open_on_exit :
    (testWebsiteRun parseNever envSnapFail "https://target.test/").outcome =
        .fatal "HTML extraction failed" ∧
      (testWebsiteRun parseNever envSnapFail "https://target.test/").browserClosed = false ∧
      (testWebsiteRun parseScripted envCompleteAt3 "https://target.test/").browserClosed = false :=
  ⟨by decide, rfl, rfl⟩

/-- Claim C10 (corrected): no exit path of `testWebsite` releases the
browser — neither normal completion nor the fatal path invokes
`browser.close`; release happens only if the caller separately invokes the
`cleanup` method, which closes the browser exactly when one is present. -/
theorem c10_cleanup_is_separate :
    (∀ (parse : String → Option Decision) (env : SessionEnv) (url : String),
      (testWebsiteRun parse env url).browserClosed = false) ∧
      cleanup true = true ∧ cleanup false = false :=
  ⟨fun _ _ _ => rfl, rfl, rfl⟩

end TestPilot
